import Mathlib

/-!
Shallow embedding of the Assignment Integrity & Time Analytics Engine
(services `employee_service`, `project_service`, `task_service`,
`time_tracking_service`, `analytics_service` and the pydantic schemas they
use).  The Mongo document store is modelled as four in-memory collections;
`find_one` is the first list element matching the filter.  A Python
`datetime` is represented by its epoch timestamp in milliseconds (an `Int`):
`datetime.fromtimestamp(ms / 1000.0)` is an order-embedding, so a stored
`startTime`/`endTime` is kept as the raw millisecond value it was built
from, and `$gte`/`$lte` comparisons on those fields become `Int`
comparisons.  A service that `raise`s `ValueError(msg)` is modelled as
returning `.error (.validation msg)` (the routers map this to a 400
bad-request outcome); a service that returns Python `None` for a missing
primary entity is modelled as `.error .notFound` (the routers map it to
404).  Mutating services return the (possibly updated) store next to the
`Except` result, so that a raised error that happens after a partial write
keeps the partial write, exactly as in the code.
-/

namespace TimeTrack

/-- Error outcomes, following §7 of the spec and the routers: `validation`
carries the `ValueError` message (HTTP 400), `notFound` is the
`None`-return path (HTTP 404), and `typeError` is an unhandled Python
`TypeError` escaping the service — no router handler catches it, so it
surfaces as an opaque 500 failure. -/
inductive SvcError where
  | notFound : SvcError
  | validation : String → SvcError
  | typeError : SvcError
deriving DecidableEq

deriving instance DecidableEq for Except

/-- schemas/employee.py `SystemPermissions`. -/
structure SystemPermissions where
  accessibility : String
  screenAndSystemAudioRecording : String
deriving DecidableEq

/-- schemas/employee.py `EmployeeSystemPermissions`. -/
structure EmployeeSystemPermissions where
  computer : String
  permissions : SystemPermissions
  createdAt : Int
  updatedAt : Int
deriving DecidableEq

/-- schemas/employee.py `EmployeeInDB` (datetimes as epoch milliseconds). -/
structure EmployeeInDB where
  id : String
  name : String
  email : String
  accountId : String
  organizationId : String
  identifier : String
  type : String
  title : Option String
  projects : List String
  systemPermissions : List EmployeeSystemPermissions
  createdAt : Int
  invited : Int
  hashed_password : Option String
  is_active : Bool
  activation_token : Option String
  deactivated_at : Option Int
deriving DecidableEq, Inhabited

/-- schemas/project.py `Payroll`: rates as exact rationals. -/
structure Payroll where
  billRate : Rat
  overtimeBillRate : Option Rat
deriving DecidableEq

/-- schemas/project.py `ScreenshotSettings`. -/
structure ScreenshotSettings where
  screenshotEnabled : Bool
deriving DecidableEq, Inhabited

/-- schemas/project.py `ProjectPayroll`: a dict from employee-id-or-wildcard
to payroll details, modelled as an association list (Python dict keys are
unique; the services only iterate the keys). -/
abbrev ProjectPayroll := List (String × Payroll)

/-- schemas/project.py `ProjectCreate` (= `ProjectBase`). -/
structure ProjectCreate where
  name : String
  description : Option String
  billable : Bool
  employees : List String
  screenshotSettings : ScreenshotSettings
  payroll : ProjectPayroll
deriving DecidableEq

/-- schemas/project.py `ProjectUpdate`: `some` = field present in the
request body, `none` = unset (pydantic `exclude_unset`). -/
structure ProjectUpdate where
  name : Option String
  description : Option String
  billable : Option Bool
  employees : Option (List String)
  screenshotSettings : Option ScreenshotSettings
  payroll : Option ProjectPayroll
  archived : Option Bool
deriving DecidableEq

/-- schemas/project.py `ProjectInDB`. -/
structure ProjectInDB where
  name : String
  description : Option String
  billable : Bool
  employees : List String
  screenshotSettings : ScreenshotSettings
  payroll : ProjectPayroll
  id : String
  creatorId : String
  organizationId : String
  archived : Bool
  statuses : List String
  priorities : List String
  createdAt : Int
deriving DecidableEq, Inhabited

/-- schemas/task.py `TaskUpdate`. -/
structure TaskUpdate where
  name : Option String
  projectId : Option String
  description : Option String
  billable : Option Bool
  employees : Option (List String)
  status : Option String
  priority : Option String
deriving DecidableEq

/-- schemas/task.py `TaskInDB`. -/
structure TaskInDB where
  name : String
  projectId : String
  description : Option String
  billable : Bool
  employees : List String
  status : Option String
  priority : Option String
  id : String
  creatorId : String
  organizationId : String
  createdAt : Int
deriving DecidableEq, Inhabited

/-- schemas/time_entry.py `TimeWindowCreate` (= `TimeWindowBase`); the
Python field `end` is a Lean keyword and is rendered `end_`. -/
structure TimeWindowCreate where
  start : Int
  end_ : Int
  timezoneOffset : Int
  projectId : String
  taskId : String
  taskStatus : Option String
  taskPriority : Option String
  note : Option String
  computer : String
  user : String
  domain : Option String
  os : String
  osVersion : String
  hwid : String
deriving DecidableEq

/-- schemas/time_entry.py `TimeWindowInDB`; `startTime`/`endTime` are the
datetimes built from `start`/`end`, kept as their millisecond values. -/
structure TimeWindowInDB where
  start : Int
  end_ : Int
  timezoneOffset : Int
  projectId : String
  taskId : String
  taskStatus : Option String
  taskPriority : Option String
  note : Option String
  computer : String
  user : String
  domain : Option String
  os : String
  osVersion : String
  hwid : String
  id : String
  employeeId : String
  shiftId : String
  organizationId : String
  startTime : Int
  endTime : Int
  type : String
  billable : Bool
  overtime : Bool
  paid : Bool
  billRate : Option Rat
  overtimeBillRate : Option Rat
  payRate : Option Rat
  overtimePayRate : Option Rat
  startTranslated : Int
  endTranslated : Int
deriving DecidableEq, Inhabited

/-- schemas/time_entry.py `TimeWindowUpdate`: the admin bulk-update patch,
`some` = field set in the request (pydantic `exclude_unset`). -/
structure TimeWindowUpdate where
  taskStatus : Option String
  taskPriority : Option String
  paid : Option Bool
  billable : Option Bool
  note : Option String
  billRate : Option Rat
  overtimeBillRate : Option Rat
  payRate : Option Rat
  overtimePayRate : Option Rat
deriving DecidableEq

/-- The document store: the four collections used by the core services. -/
structure Store where
  employees : List EmployeeInDB
  projects : List ProjectInDB
  tasks : List TaskInDB
  time_windows : List TimeWindowInDB
deriving DecidableEq

/-- Python truthiness of an `Optional[str]` parameter: `None` and the empty
string are falsy. -/
def truthy : Option String → Bool
  | none => false
  | some s => s ≠ ""

/-- Patch-merge rule for an optional document field: a field set in the
patch overwrites, an unset field leaves the stored value. -/
def overrideOpt {α : Type} : Option α → Option α → Option α
  | some v, _ => some v
  | none, cur => cur

/-- employee_service.get_employee: `find_one({_id: employee_id})`. -/
def get_employee (st : Store) (employee_id : String) : Option EmployeeInDB :=
  st.employees.find? (fun e => e.id == employee_id)

/-- project_service.get_project: `find_one({_id: project_id})`. -/
def get_project (st : Store) (project_id : String) : Option ProjectInDB :=
  st.projects.find? (fun p => p.id == project_id)

/-- task_service.get_task: `find_one({_id: task_id})`. -/
def get_task (st : Store) (task_id : String) : Option TaskInDB :=
  st.tasks.find? (fun t => t.id == task_id)

/-- project_service._validate_payroll, inner loop over the dict keys:
wildcard keys are skipped, any other key must be an assigned employee. -/
def validate_payroll_keys : ProjectPayroll → List String → Except SvcError Unit
  | [], _ => .ok ()
  | (employee_id, _) :: rest, assigned_employee_ids =>
    if employee_id == "*" then
      validate_payroll_keys rest assigned_employee_ids
    else if assigned_employee_ids.contains employee_id then
      validate_payroll_keys rest assigned_employee_ids
    else
      .error (.validation ("Cannot set payroll for employee " ++ employee_id ++
        " who is not assigned to the project."))

/-- project_service._validate_payroll: `None` payroll validates trivially. -/
def validate_payroll (payroll : Option ProjectPayroll)
    (assigned_employee_ids : List String) : Except SvcError Unit :=
  match payroll with
  | none => .ok ()
  | some pm => validate_payroll_keys pm assigned_employee_ids

/-- project_service._validate_active_employees: for each id, there must be
an employee document matching `{_id: id, deactivated_at: None}`. -/
def validate_active_employees (st : Store) : List String → Except SvcError Unit
  | [] => .ok ()
  | employee_id :: rest =>
    match st.employees.find? (fun e => e.id == employee_id && e.deactivated_at.isNone) with
    | some _ => validate_active_employees st rest
    | none => .error (.validation ("Employee with ID " ++ employee_id ++
        " is either deactivated or does not exist."))

/-- Mongo `$addToSet`: append unless already present. -/
def addToSet (l : List String) (x : String) : List String :=
  if l.contains x then l else l ++ [x]

/-- project_service._sync_employee_projects: `$addToSet` the project id for
every added employee, `$pull` it for every removed employee. -/
def sync_employee_projects (st : Store) (project_id : String)
    (added_ids removed_ids : List String) : Store :=
  { st with employees := st.employees.map (fun e =>
      let e1 := if added_ids.contains e.id then
          { e with projects := addToSet e.projects project_id } else e
      if removed_ids.contains e1.id then
          { e1 with projects := e1.projects.filter (fun p => p ≠ project_id) } else e1) }

/-- project_service.create_project; `fresh_id` stands for the generated
uuid and `now` for the creation datetime. -/
def create_project (st : Store) (project_in : ProjectCreate)
    (creator_id fresh_id : String) (now : Int) : Store × Except SvcError ProjectInDB :=
  match validate_active_employees st project_in.employees with
  | .error e => (st, .error e)
  | .ok _ =>
    match validate_payroll (some project_in.payroll) project_in.employees with
    | .error e => (st, .error e)
    | .ok _ =>
      let db_project : ProjectInDB := {
        name := project_in.name
        description := project_in.description
        billable := project_in.billable
        employees := project_in.employees
        screenshotSettings := project_in.screenshotSettings
        payroll := project_in.payroll
        id := fresh_id
        creatorId := creator_id
        organizationId := "default-org"
        archived := false
        statuses := ["To Do", "In Progress", "Done"]
        priorities := ["Low", "Medium", "High"]
        createdAt := now }
      let st1 := { st with projects := st.projects ++ [db_project] }
      let st2 := if db_project.employees.isEmpty then st1
        else sync_employee_projects st1 fresh_id db_project.employees []
      (st2, .ok db_project)

/-- Applying `$set` of a `ProjectUpdate` patch onto a stored project document. -/
def applyProjectUpdate (p : ProjectInDB) (u : ProjectUpdate) : ProjectInDB :=
  { p with
    name := u.name.getD p.name
    description := overrideOpt u.description p.description
    billable := u.billable.getD p.billable
    employees := u.employees.getD p.employees
    screenshotSettings := u.screenshotSettings.getD p.screenshotSettings
    payroll := u.payroll.getD p.payroll
    archived := u.archived.getD p.archived }

/-- The `exclude_unset` dict of a `ProjectUpdate` is empty. -/
def ProjectUpdate.isEmpty (u : ProjectUpdate) : Bool :=
  u.name.isNone && u.description.isNone && u.billable.isNone && u.employees.isNone &&
    u.screenshotSettings.isNone && u.payroll.isNone && u.archived.isNone

/-- project_service.update_project.  The two-way-binding sync runs before
the payroll validation, so a payroll failure keeps the already-synced
employee documents, as in the code. -/
def update_project (st : Store) (project_id : String)
    (project_in : ProjectUpdate) : Store × Except SvcError ProjectInDB :=
  match get_project st project_id with
  | none => (st, .error .notFound)
  | some current_project =>
    let final_employee_list := project_in.employees.getD current_project.employees
    let synced : Except SvcError Store :=
      match project_in.employees with
      | none => .ok st
      | some new_list =>
        match validate_active_employees st new_list with
        | .error e => .error e
        | .ok _ =>
          let added_employees := new_list.filter
            (fun x => !current_project.employees.contains x)
          let removed_employees := current_project.employees.filter
            (fun x => !new_list.contains x)
          .ok (sync_employee_projects st project_id added_employees removed_employees)
    match synced with
    | .error e => (st, .error e)
    | .ok st1 =>
      match validate_payroll project_in.payroll final_employee_list with
      | .error e => (st1, .error e)
      | .ok _ =>
        if project_in.isEmpty then
          (st1, .error (.validation "No update data provided."))
        else
          let st2 := { st1 with projects := st1.projects.map (fun p =>
            if p.id == project_id then applyProjectUpdate p project_in else p) }
          match get_project st2 project_id with
          | some p => (st2, .ok p)
          | none => (st2, .error .notFound)

/-- employee_service.deactivate_employee; `now` is the deactivation
datetime.  The employee is pulled from the `employees` array of every
project listed in its own `projects` array, then marked deactivated. -/
def deactivate_employee (st : Store) (employee_id : String) (now : Int) :
    Store × Except SvcError EmployeeInDB :=
  match get_employee st employee_id with
  | none => (st, .error .notFound)
  | some employee =>
    if employee.deactivated_at.isSome then
      (st, .error (.validation "Employee is already deactivated."))
    else
      let st1 := if employee.projects.isEmpty then st
        else { st with projects := st.projects.map (fun p =>
          if employee.projects.contains p.id then
            { p with employees := p.employees.filter (fun x => x ≠ employee_id) }
          else p) }
      let st2 := { st1 with employees := st1.employees.map (fun e =>
        if e.id == employee_id then
          { e with deactivated_at := some now, is_active := false }
        else e) }
      match get_employee st2 employee_id with
      | some e => (st2, .ok e)
      | none => (st2, .error .notFound)

/-- task_service._validate_task_data: the parent project must exist, and
every task employee must belong to it (first offender raised). -/
def validate_task_data (st : Store) (project_id : String)
    (employee_ids : List String) : Except SvcError Unit :=
  match get_project st project_id with
  | none => .error (.validation ("Project with ID " ++ project_id ++ " does not exist."))
  | some project =>
    match employee_ids.find? (fun e => !project.employees.contains e) with
    | some bad => .error (.validation ("Employee with ID " ++ bad ++
        " cannot be assigned to the task as they are not assigned to the parent project."))
    | none => .ok ()

/-- Merging (`model_copy(update=...)` and `$set`) a `TaskUpdate` patch onto a task. -/
def applyTaskUpdate (t : TaskInDB) (u : TaskUpdate) : TaskInDB :=
  { t with
    name := u.name.getD t.name
    projectId := u.projectId.getD t.projectId
    description := overrideOpt u.description t.description
    billable := u.billable.getD t.billable
    employees := u.employees.getD t.employees
    status := overrideOpt u.status t.status
    priority := overrideOpt u.priority t.priority }

/-- The `exclude_unset` dict of a `TaskUpdate` is empty. -/
def TaskUpdate.isEmpty (u : TaskUpdate) : Bool :=
  u.name.isNone && u.projectId.isNone && u.description.isNone && u.billable.isNone &&
    u.employees.isNone && u.status.isNone && u.priority.isNone

/-- task_service.update_task: merges the patch onto the stored task and
validates the merged final state before writing. -/
def update_task (st : Store) (task_id : String) (task_in : TaskUpdate) :
    Store × Except SvcError TaskInDB :=
  match get_task st task_id with
  | none => (st, .error .notFound)
  | some current_task =>
    let final_task_data := applyTaskUpdate current_task task_in
    match validate_task_data st final_task_data.projectId final_task_data.employees with
    | .error e => (st, .error e)
    | .ok _ =>
      if task_in.isEmpty then
        (st, .error (.validation "No update data provided."))
      else
        let st1 := { st with tasks := st.tasks.map (fun t =>
          if t.id == task_id then applyTaskUpdate t task_in else t) }
        match get_task st1 task_id with
        | some t => (st1, .ok t)
        | none => (st1, .error .notFound)

/-- time_tracking_service._validate_time_window: the five fail-fast checks,
in source order, each with its `ValueError` message. -/
def validate_time_window (st : Store) (window_in : TimeWindowCreate)
    (employee_id : String) : Except SvcError Unit :=
  match get_employee st employee_id with
  | none => .error (.validation "Employee is not active or does not exist.")
  | some employee =>
    if employee.deactivated_at.isSome then
      .error (.validation "Employee is not active or does not exist.")
    else
      match get_project st window_in.projectId with
      | none => .error (.validation "Project does not exist or is archived.")
      | some project =>
        if project.archived then
          .error (.validation "Project does not exist or is archived.")
        else if !project.employees.contains employee_id then
          .error (.validation "Employee is not assigned to this project.")
        else
          match get_task st window_in.taskId with
          | none => .error (.validation "Task does not exist.")
          | some task =>
            if !task.employees.contains employee_id then
              .error (.validation "Employee is not assigned to this task.")
            else .ok ()

/-- time_tracking_service.add_time_window; `fresh_id` and `fresh_shift`
stand for the generated uuids.  The translated times subtract the raw
`timezoneOffset` field directly from the millisecond timestamps. -/
def add_time_window (st : Store) (window_in : TimeWindowCreate)
    (employee_id fresh_id fresh_shift : String) : Store × Except SvcError TimeWindowInDB :=
  match validate_time_window st window_in employee_id with
  | .error e => (st, .error e)
  | .ok _ =>
    let db_window : TimeWindowInDB := {
      start := window_in.start
      end_ := window_in.end_
      timezoneOffset := window_in.timezoneOffset
      projectId := window_in.projectId
      taskId := window_in.taskId
      taskStatus := window_in.taskStatus
      taskPriority := window_in.taskPriority
      note := window_in.note
      computer := window_in.computer
      user := window_in.user
      domain := window_in.domain
      os := window_in.os
      osVersion := window_in.osVersion
      hwid := window_in.hwid
      id := fresh_id
      employeeId := employee_id
      shiftId := fresh_shift
      organizationId := "default-org"
      startTime := window_in.start
      endTime := window_in.end_
      type := "tracked"
      billable := true
      overtime := false
      paid := false
      billRate := none
      overtimeBillRate := none
      payRate := none
      overtimePayRate := none
      startTranslated := window_in.start - window_in.timezoneOffset
      endTranslated := window_in.end_ - window_in.timezoneOffset }
    ({ st with time_windows := st.time_windows ++ [db_window] }, .ok db_window)

/-- The `exclude_unset` dict of a `TimeWindowUpdate` is empty. -/
def TimeWindowUpdate.isEmpty (u : TimeWindowUpdate) : Bool :=
  u.taskStatus.isNone && u.taskPriority.isNone && u.paid.isNone && u.billable.isNone &&
    u.note.isNone && u.billRate.isNone && u.overtimeBillRate.isNone &&
    u.payRate.isNone && u.overtimePayRate.isNone

/-- Applying `$set` of a `TimeWindowUpdate` patch onto a stored time window. -/
def applyTimeWindowUpdate (w : TimeWindowInDB) (u : TimeWindowUpdate) : TimeWindowInDB :=
  { w with
    taskStatus := overrideOpt u.taskStatus w.taskStatus
    taskPriority := overrideOpt u.taskPriority w.taskPriority
    paid := u.paid.getD w.paid
    billable := u.billable.getD w.billable
    note := overrideOpt u.note w.note
    billRate := overrideOpt u.billRate w.billRate
    overtimeBillRate := overrideOpt u.overtimeBillRate w.overtimeBillRate
    payRate := overrideOpt u.payRate w.payRate
    overtimePayRate := overrideOpt u.overtimePayRate w.overtimePayRate }

/-- The bulk-update filter: each of the two ids constrains the match only
when it is truthy, as in the query the code builds. -/
def bulkFilter (employee_id project_id : Option String) (w : TimeWindowInDB) : Bool :=
  (!truthy employee_id || w.employeeId == employee_id.getD "") &&
    (!truthy project_id || w.projectId == project_id.getD "")

/-- time_tracking_service.update_time_windows: requires at least one truthy
filter and a non-empty patch, then `update_many` returning the modified
count (documents the patch actually changes). -/
def update_time_windows (st : Store) (update_data : TimeWindowUpdate)
    (employee_id project_id : Option String) : Store × Except SvcError Nat :=
  if !truthy employee_id && !truthy project_id then
    (st, .error (.validation "Either employee_id or project_id must be provided."))
  else if update_data.isEmpty then
    (st, .error (.validation "No update data provided."))
  else
    let st1 := { st with time_windows := st.time_windows.map (fun w =>
      if bulkFilter employee_id project_id w then applyTimeWindowUpdate w update_data else w) }
    let modified := (st.time_windows.filter (fun w =>
      bulkFilter employee_id project_id w && applyTimeWindowUpdate w update_data ≠ w)).length
    (st1, .ok modified)

/-- MongoDB `$round` to an integer: round half to even. -/
def roundHalfEven (q : Rat) : Int :=
  let f : Int := ⌊q⌋
  let r : Rat := q - f
  if r < 1 / 2 then f
  else if 1 / 2 < r then f + 1
  else if f % 2 = 0 then f else f + 1

/-- Mongo `$round [x, 2]`: round to 2 decimal places, half to even. -/
def round2 (q : Rat) : Rat := (roundHalfEven (q * 100) : Rat) / 100

/-- schemas/analytics.py `ProjectTime`. -/
structure ProjectTime where
  id : String
  time : Int
  costs : Rat
  income : Rat
deriving DecidableEq, Inhabited

/-- The `$match` stage of the project-time pipeline: the stored
`startTime`/`endTime` (raw-derived datetimes) against the range bounds,
plus the truthy optional filters. -/
def windowMatches (start end_ : Int) (employee_id project_id task_id : Option String)
    (w : TimeWindowInDB) : Bool :=
  decide (start ≤ w.startTime) && decide (w.endTime ≤ end_) &&
    (!truthy employee_id || w.employeeId == employee_id.getD "") &&
    (!truthy project_id || w.projectId == project_id.getD "") &&
    (!truthy task_id || w.taskId == task_id.getD "")

/-- The distinct `$group` keys, in first-occurrence order. -/
def distinctKeys : List String → List String
  | [] => []
  | x :: xs => x :: (distinctKeys xs).filter (fun y => y ≠ x)

/-- One output document of the `$group` + `$project` stages: for the group
key `pid`, the sums of `end - start`, and of duration-in-hours times
`billRate`/`payRate` with `$ifNull` 0, the two monetary totals passed
through `$round [_, 2]` once, after the summation. -/
def groupEntry (matched : List TimeWindowInDB) (pid : String) : ProjectTime :=
  { id := pid
    time := ((matched.filter (fun w => w.projectId == pid)).map
      (fun w => w.end_ - w.start)).sum
    costs := round2 (((matched.filter (fun w => w.projectId == pid)).map (fun w =>
      ((w.end_ - w.start : Int) : Rat) / 3600000 * (w.payRate.getD 0))).sum)
    income := round2 (((matched.filter (fun w => w.projectId == pid)).map (fun w =>
      ((w.end_ - w.start : Int) : Rat) / 3600000 * (w.billRate.getD 0))).sum) }

/-- The value of `result` in analytics_service.get_project_time_analytics
(the plain list produced by `aggregate` + `to_list` from the assembled
`$match`/`$group`/`$project` pipeline): the `$match` stage selects the
windows, then one `ProjectTime` per distinct `projectId`. -/
def project_time_pipeline (st : Store) (start end_ : Int)
    (employee_id project_id task_id : Option String) : List ProjectTime :=
  let matched := st.time_windows.filter (windowMatches start end_ employee_id project_id task_id)
  (distinctKeys (matched.map (fun w => w.projectId))).map (groupEntry matched)

/-- analytics_service.get_project_time_analytics: assembles the pipeline,
runs it and collects the result into a plain list, but then iterates
`async for doc in result` over that plain list — in Python a `TypeError`
on every call, raised after the aggregation and before anything is
returned, so the function never yields the report. -/
def get_project_time_analytics (st : Store) (start end_ : Int)
    (employee_id project_id task_id : Option String) :
    Except SvcError (List ProjectTime) :=
  let _result := project_time_pipeline st start end_ employee_id project_id task_id
  .error .typeError

/-! ### Concrete fixtures used by counterexamples and witnesses -/

/-- A minimal active employee document. -/
def mkEmployee (i : String) (projects : List String) (deact : Option Int) : EmployeeInDB :=
  { id := i, name := i, email := i, accountId := "a", organizationId := "default-org"
    identifier := i, type := "personal", title := none, projects := projects
    systemPermissions := [], createdAt := 0, invited := 0, hashed_password := none
    is_active := true, activation_token := none, deactivated_at := deact }

/-- A minimal project document. -/
def mkProject (i : String) (employees : List String) (archived : Bool)
    (payroll : ProjectPayroll) : ProjectInDB :=
  { name := i, description := none, billable := true, employees := employees
    screenshotSettings := { screenshotEnabled := true }, payroll := payroll, id := i
    creatorId := "admin", organizationId := "default-org", archived := archived
    statuses := ["To Do", "In Progress", "Done"]
    priorities := ["Low", "Medium", "High"], createdAt := 0 }

/-- A minimal task document. -/
def mkTask (i pid : String) (employees : List String) : TaskInDB :=
  { name := i, projectId := pid, description := none, billable := true
    employees := employees, status := some "To Do", priority := some "Medium"
    id := i, creatorId := "admin", organizationId := "default-org", createdAt := 0 }

/-- A time-window submission body. -/
def mkWindowCreate (s e tz : Int) (pid tid : String) : TimeWindowCreate :=
  { start := s, end_ := e, timezoneOffset := tz, projectId := pid, taskId := tid
    taskStatus := none, taskPriority := none, note := none, computer := "c"
    user := "u", domain := none, os := "o", osVersion := "v", hwid := "h" }

/-- A stored time-window document with the given raw interval, offset and
rates (the translated fields derived exactly as `add_time_window` does). -/
def mkStoredWindow (i eid pid tid : String) (s e tz : Int)
    (bill pay : Option Rat) : TimeWindowInDB :=
  { start := s, end_ := e, timezoneOffset := tz, projectId := pid, taskId := tid
    taskStatus := none, taskPriority := none, note := none, computer := "c"
    user := "u", domain := none, os := "o", osVersion := "v", hwid := "h"
    id := i, employeeId := eid, shiftId := "sh", organizationId := "default-org"
    startTime := s, endTime := e, type := "tracked", billable := true
    overtime := false, paid := false, billRate := bill, overtimeBillRate := none
    payRate := pay, overtimePayRate := none
    startTranslated := s - tz, endTranslated := e - tz }

/-- A store with one fully valid assignment chain: active employee E1,
member of non-archived project P1 and of task T1 under P1. -/
def stOk : Store :=
  { employees := [mkEmployee "E1" ["P1"] none]
    projects := [mkProject "P1" ["E1"] false []]
    tasks := [mkTask "T1" "P1" ["E1"]]
    time_windows := [] }

/-! ### C1: timezone translation -/

/-- A submission with rawStart = 1000000 and `timezoneOffset` field 60
(which the claim reads as 60 minutes). -/
def winC1 : TimeWindowCreate := mkWindowCreate 1000000 2000000 60 "P1" "T1"

/-- A submission carrying the offset already in milliseconds. -/
def winC1ms : TimeWindowCreate := mkWindowCreate 1000000 2000000 3600000 "P1" "T1"

/-- C1, counterexample: the code stores `start - timezoneOffset` without any
minutes-to-milliseconds conversion, so a window with rawStart 1000000 and
timezoneOffset 60 is stored with canonicalStart 999940, not the
−2600000 = 1000000 − 60×60000 the claim requires. -/
theorem c1_offset_counterexample :
    ((add_time_window stOk winC1 "E1" "W1" "S1").2.toOption.map
        (fun dw => dw.startTranslated)) = some 999940 ∧
      (999940 : Int) ≠ 1000000 - 60 * 60000 := by
  decide

/-- C1, amended: every time window accepted by `add_time_window` is stored
with canonicalStart = rawStart − timezoneOffset and canonicalEnd = rawEnd −
timezoneOffset, the `timezoneOffset` field being subtracted as-is (it is
expressed in the same millisecond unit as the timestamps). -/
theorem c1_translation (st : Store) (w : TimeWindowCreate)
    (eid fid sid : String) (st' : Store) (dw : TimeWindowInDB)
    (h : add_time_window st w eid fid sid = (st', .ok dw)) :
    dw.startTranslated = w.start - w.timezoneOffset ∧
      dw.endTranslated = w.end_ - w.timezoneOffset := by
  unfold add_time_window at h
  cases hv : validate_time_window st w eid with
  | error e => rw [hv] at h; simp at h
  | ok u =>
    rw [hv] at h
    simp only [Prod.mk.injEq, Except.ok.injEq] at h
    obtain ⟨-, h2⟩ := h
    subst h2
    exact ⟨rfl, rfl⟩

/-- C1 witness: on the valid store, a window with rawStart 1000000 and a
3600000 ms offset (60 minutes) is stored with canonicalStart −2600000,
matching the translation rule of the amended claim. -/
theorem c1_translation_witness :
    ((add_time_window stOk winC1ms "E1" "W1" "S1").2.toOption.iget).startTranslated
        = winC1ms.start - winC1ms.timezoneOffset ∧
      winC1ms.start - winC1ms.timezoneOffset = -2600000 := by
  constructor
  · exact (c1_translation stOk winC1ms "E1" "W1" "S1"
      (add_time_window stOk winC1ms "E1" "W1" "S1").1
      ((add_time_window stOk winC1ms "E1" "W1" "S1").2.toOption.iget)
      (by decide)).1
  · decide

/-! ### C2: employee deactivation -/

/-- A store where deactivating E1 is exercised: E1 lists project P1 and P1
lists E1. -/
def stC2 : Store :=
  { employees := [mkEmployee "E1" ["P1"] none]
    projects := [mkProject "P1" ["E1"] false []]
    tasks := [], time_windows := [] }

/-- C2, evaluation at the failing input: after `deactivate_employee`
succeeds on active employee E1 (member of P1), E1 has indeed been pulled
from the membership list of P1, but E1's own project-id set is left as
["P1"], not emptied — the employee-side half of the bidirectional
invariant is not restored. -/
theorem c2_deactivation_divergence :
    ((deactivate_employee stC2 "E1" 99).1.projects.map (fun p => p.employees)) = [[]] ∧
      ((deactivate_employee stC2 "E1" 99).2.toOption.map (fun e => e.projects))
        = some ["P1"] ∧
      ((deactivate_employee stC2 "E1" 99).2.toOption.map (fun e => e.deactivated_at))
        = some (some 99) := by
  decide

/-! ### C9: canonical order invariant -/

/-- A submission whose raw end precedes its raw start. -/
def winC9 : TimeWindowCreate := mkWindowCreate 1000 0 0 "P1" "T1"

/-- C9, counterexample: a fully valid assignment with rawStart 1000 and
rawEnd 0 passes every validation check, is written to the store, and the
stored record has canonicalEnd 0 < canonicalStart 1000 — no rejection
happens and the invariant fails on the stored record. -/
theorem c9_order_counterexample :
    ((add_time_window stOk winC9 "E1" "W1" "S1").2.toOption.map
        (fun dw => (dw.startTranslated, dw.endTranslated))) = some (1000, 0) ∧
      (add_time_window stOk winC9 "E1" "W1" "S1").1.time_windows.length
        = stOk.time_windows.length + 1 := by
  decide

/-- C9, amended: `add_time_window` performs no ordering check; for every
persisted window the canonical interval is the raw interval shifted by the
offset, so canonicalEnd ≥ canonicalStart holds exactly when the submitted
rawEnd ≥ rawStart, and submissions violating it are stored unrejected. -/
theorem c9_translation_invariant (st : Store) (w : TimeWindowCreate)
    (eid fid sid : String) (st' : Store) (dw : TimeWindowInDB)
    (h : add_time_window st w eid fid sid = (st', .ok dw)) :
    dw.startTranslated ≤ dw.endTranslated ↔ w.start ≤ w.end_ := by
  unfold add_time_window at h
  cases hv : validate_time_window st w eid with
  | error e => rw [hv] at h; simp at h
  | ok u =>
    rw [hv] at h
    simp only [Prod.mk.injEq, Except.ok.injEq] at h
    obtain ⟨-, h2⟩ := h
    subst h2
    simp only []
    omega

/-- C9 witness: a well-ordered submission on the valid store is stored with
canonicalStart ≤ canonicalEnd. -/
theorem c9_translation_invariant_witness :
    (((add_time_window stOk winC1ms "E1" "W2" "S2").2.toOption.iget).startTranslated
        ≤ ((add_time_window stOk winC1ms "E1" "W2" "S2").2.toOption.iget).endTranslated)
      ∧ winC1ms.start ≤ winC1ms.end_ := by
  have h := c9_translation_invariant stOk winC1ms "E1" "W2" "S2"
      (add_time_window stOk winC1ms "E1" "W2" "S2").1
      ((add_time_window stOk winC1ms "E1" "W2" "S2").2.toOption.iget)
      (by decide)
  exact ⟨h.mpr (by decide), by decide⟩

/-! ### C7: fail-fast validation order for time-window submission -/

/-- C7: the five checks of the time-window validator fire in source order —
(1) employee exists and not deactivated, (2) project exists and not
archived, (3) employee in project membership, (4) task exists, (5) employee
in task membership — each with its own ValidationError message, the first
violation winning regardless of later state; and a failed validation makes
`add_time_window` return the error with the store untouched (no write). -/
theorem c7_failfast_order (st : Store) (w : TimeWindowCreate) (eid : String) :
    ((∀ e, get_employee st eid = some e → e.deactivated_at ≠ none) →
      validate_time_window st w eid
        = .error (.validation "Employee is not active or does not exist.")) ∧
    (∀ e, get_employee st eid = some e → e.deactivated_at = none →
      (∀ p, get_project st w.projectId = some p → p.archived = true) →
      validate_time_window st w eid
        = .error (.validation "Project does not exist or is archived.")) ∧
    (∀ e p, get_employee st eid = some e → e.deactivated_at = none →
      get_project st w.projectId = some p → p.archived = false →
      eid ∉ p.employees →
      validate_time_window st w eid
        = .error (.validation "Employee is not assigned to this project.")) ∧
    (∀ e p, get_employee st eid = some e → e.deactivated_at = none →
      get_project st w.projectId = some p → p.archived = false →
      eid ∈ p.employees → get_task st w.taskId = none →
      validate_time_window st w eid
        = .error (.validation "Task does not exist.")) ∧
    (∀ e p t, get_employee st eid = some e → e.deactivated_at = none →
      get_project st w.projectId = some p → p.archived = false →
      eid ∈ p.employees → get_task st w.taskId = some t →
      eid ∉ t.employees →
      validate_time_window st w eid
        = .error (.validation "Employee is not assigned to this task.")) ∧
    (∀ err fid sid, validate_time_window st w eid = .error err →
      add_time_window st w eid fid sid = (st, .error err)) := by
  refine ⟨?_, ?_, ?_, ?_, ?_, ?_⟩
  · intro hde
    unfold validate_time_window
    cases he : get_employee st eid with
    | none => rfl
    | some e => simp [Option.isSome_iff_ne_none, hde e he]
  · intro e he hde hproj
    unfold validate_time_window
    simp only [he]
    cases hp : get_project st w.projectId with
    | none => simp [hde]
    | some p => simp [hde, hproj p hp]
  · intro e p he hde hp harch hmem
    unfold validate_time_window
    simp only [he]
    simp [hde, hp, harch, List.elem_iff, hmem]
  · intro e p he hde hp harch hmem ht
    unfold validate_time_window
    simp only [he]
    simp [hde, hp, harch, List.elem_iff, hmem, ht]
  · intro e p t he hde hp harch hmem ht htm
    unfold validate_time_window
    simp only [he]
    simp [hde, hp, harch, List.elem_iff, hmem, ht, htm]
  · intro err fid sid hv
    unfold add_time_window
    simp only [hv]

/-- A store with an active employee E2 who is not a member of project P1. -/
def stC7 : Store :=
  { employees := [mkEmployee "E2" [] none]
    projects := [mkProject "P1" ["E1"] false []]
    tasks := [], time_windows := [] }

/-- A submission by E2 against P1. -/
def winC7 : TimeWindowCreate := mkWindowCreate 0 10 0 "P1" "T1"

/-- C7 witness: submitting a window for an employee not assigned to the
named project fails with the project-membership ValidationError, and the
store is untouched. -/
theorem c7_failfast_order_witness :
    validate_time_window stC7 winC7 "E2"
        = .error (.validation "Employee is not assigned to this project.") ∧
      add_time_window stC7 winC7 "E2" "W1" "S1"
        = (stC7, .error (.validation "Employee is not assigned to this project.")) := by
  have h := c7_failfast_order stC7 winC7 "E2"
  have hv := h.2.2.1 (mkEmployee "E2" [] none) (mkProject "P1" ["E1"] false [])
    (by decide) (by decide) (by decide) (by decide) (by decide)
  exact ⟨hv, h.2.2.2.2.2 _ "W1" "S1" hv⟩

/-! ### C6: task update validates the merged final state -/

/-- A store for the C6 counterexample: project P1 exists, task T1 lives
under it; the patch moves the task to the nonexistent project P9. -/
def stC6 : Store :=
  { employees := [], projects := [mkProject "P1" [] false []]
    tasks := [mkTask "T1" "P1" []], time_windows := [] }

/-- A task patch supplying only a (dangling) projectId. -/
def patchC6 : TaskUpdate :=
  { name := none, projectId := some "P9", description := none, billable := none
    employees := none, status := none, priority := none }

/-- C6, counterexample: when the final (post-patch) projectId references no
existing project, `update_task` raises the same ValueError channel as a
membership violation (mapped by the router to a 400 ValidationError), not
the NotFound outcome — which the service produces only for a missing task
id.  The store is untouched. -/
theorem c6_notfound_counterexample :
    (update_task stC6 "T1" patchC6).2
        = .error (.validation "Project with ID P9 does not exist.") ∧
      (update_task stC6 "T1" patchC6).2 ≠ .error .notFound ∧
      (update_task stC6 "T1" patchC6).1 = stC6 := by
  decide

/-- C6, amended: `update_task` validates the final state obtained by
merging the patch onto the stored task — even when only one of the two
fields is supplied: a final projectId referencing no existing project
fails with a ValidationError (not NotFound), an id in the final employee
list missing from that project's membership fails with a ValidationError,
and in both cases the pair returned carries the unchanged store (nothing
is written). -/
theorem c6_merged_validation (st : Store) (tid : String) (patch : TaskUpdate)
    (cur : TaskInDB) (h : get_task st tid = some cur) :
    (get_project st (applyTaskUpdate cur patch).projectId = none →
      update_task st tid patch = (st, .error (.validation ("Project with ID " ++
        (applyTaskUpdate cur patch).projectId ++ " does not exist.")))) ∧
    (∀ proj bad, get_project st (applyTaskUpdate cur patch).projectId = some proj →
      bad ∈ (applyTaskUpdate cur patch).employees → bad ∉ proj.employees →
      ∃ msg, update_task st tid patch = (st, .error (.validation msg))) := by
  constructor
  · intro hp
    unfold update_task
    simp only [h]
    unfold validate_task_data
    simp only [hp]
  · intro proj bad hp hbadmem hbadnot
    unfold update_task
    simp only [h]
    unfold validate_task_data
    simp only [hp]
    have hsome : ((applyTaskUpdate cur patch).employees.find?
        (fun e => !proj.employees.contains e)).isSome := by
      rw [List.find?_isSome]
      exact ⟨bad, hbadmem, by simpa [List.elem_iff] using hbadnot⟩
    cases hfind : (applyTaskUpdate cur patch).employees.find?
        (fun e => !proj.employees.contains e) with
    | none => rw [hfind] at hsome; simp at hsome
    | some badf =>
      refine ⟨"Employee with ID " ++ badf ++
        " cannot be assigned to the task as they are not assigned to the parent project.", ?_⟩
      simp only [hfind]

/-- A store whose project P1 has membership [E1] and whose task T1 under P1
has no members yet. -/
def stC6w : Store :=
  { employees := [], projects := [mkProject "P1" ["E1"] false []]
    tasks := [mkTask "T1" "P1" []], time_windows := [] }

/-- A task patch supplying only an employee list naming the outsider E2. -/
def patchC6w : TaskUpdate :=
  { name := none, projectId := none, description := none, billable := none
    employees := some ["E2"], status := none, priority := none }

/-- C6 witness: patching only the employee list with an id outside the
parent project's membership fails with a ValidationError and writes
nothing. -/
theorem c6_merged_validation_witness :
    ∃ msg, update_task stC6w "T1" patchC6w = (stC6w, .error (.validation msg)) := by
  have h := c6_merged_validation stC6w "T1" patchC6w (mkTask "T1" "P1" []) (by decide)
  exact h.2 (mkProject "P1" ["E1"] false []) "E2" (by decide) (by decide) (by decide)

/-! ### C8: bulk time-window update -/

/-- The all-unset bulk patch (every field absent). -/
def twuEmpty : TimeWindowUpdate :=
  { taskStatus := none, taskPriority := none, paid := none, billable := none
    note := none, billRate := none, overtimeBillRate := none, payRate := none
    overtimePayRate := none }

/-- A bulk patch setting only `paid`. -/
def twuPaid : TimeWindowUpdate :=
  { taskStatus := none, taskPriority := none, paid := some true, billable := none
    note := none, billRate := none, overtimeBillRate := none, payRate := none
    overtimePayRate := none }

/-- A store holding one unpaid window of employee E1. -/
def stC8 : Store :=
  { employees := [], projects := [], tasks := []
    time_windows := [mkStoredWindow "W1" "E1" "P1" "T1" 0 10 0 none none] }

/-- C8, counterexample: with the employeeId filter supplied but an empty
patch, the bulk update raises the no-update-data ValidationError instead
of applying the (empty) patch and returning a modified count. -/
theorem c8_empty_patch_counterexample :
    truthy (some "E1") = true ∧
      update_time_windows stC8 twuEmpty (some "E1") none
        = (stC8, .error (.validation "No update data provided.")) := by
  decide

/-- C8, amended: with neither filter truthy the bulk update fails with a
ValidationError before any store mutation; with at least one filter
supplied and a patch that sets at least one field, it applies the patch to
every matching time window and returns the count of documents the patch
actually modified (an all-unset patch instead raises the no-update-data
ValidationError, per the counterexample). -/
theorem c8_bulk_update :
    (∀ (st : Store) (u : TimeWindowUpdate) (ef pf : Option String),
      truthy ef = false → truthy pf = false →
      update_time_windows st u ef pf
        = (st, .error (.validation "Either employee_id or project_id must be provided."))) ∧
    (∀ (st : Store) (u : TimeWindowUpdate) (ef pf : Option String),
      (truthy ef = true ∨ truthy pf = true) → u.isEmpty = false →
      update_time_windows st u ef pf
        = ({ st with time_windows := st.time_windows.map (fun w =>
              if bulkFilter ef pf w then applyTimeWindowUpdate w u else w) },
            .ok ((st.time_windows.filter (fun w =>
              bulkFilter ef pf w && applyTimeWindowUpdate w u ≠ w)).length))) := by
  constructor
  · intro st u ef pf hef hpf
    unfold update_time_windows
    simp [hef, hpf]
  · intro st u ef pf hf hne
    unfold update_time_windows
    have hcond : (!truthy ef && !truthy pf) = false := by
      rcases hf with h | h <;> simp [h]
    simp [hcond, hne]

/-- C8 witness: on the one-window store, the filterless call fails with the
missing-filter ValidationError, and the employee-filtered call with a
patch setting `paid` updates the matching window and reports 1 modified
document. -/
theorem c8_bulk_update_witness :
    update_time_windows stC8 twuEmpty none none
        = (stC8, .error (.validation "Either employee_id or project_id must be provided.")) ∧
      update_time_windows stC8 twuPaid (some "E1") none
        = ({ stC8 with time_windows := stC8.time_windows.map (fun w =>
              if bulkFilter (some "E1") none w then applyTimeWindowUpdate w twuPaid else w) },
            .ok 1) := by
  constructor
  · exact (c8_bulk_update).1 stC8 twuEmpty none none (by decide) (by decide)
  · have h := (c8_bulk_update).2 stC8 twuPaid (some "E1") none (Or.inl (by decide)) (by decide)
    rw [h]
    decide

/-! ### C3 / C4: the project-time report -/

lemma groupEntry_id (m : List TimeWindowInDB) (pid : String) :
    (groupEntry m pid).id = pid := rfl

lemma mem_distinctKeys (y : String) (l : List String) :
    y ∈ distinctKeys l ↔ y ∈ l := by
  induction l with
  | nil => simp [distinctKeys]
  | cons x xs ih =>
    simp only [distinctKeys, List.mem_cons, List.mem_filter, ih]
    by_cases hyx : y = x <;> simp [hyx]

/-- The `$match` stage, spelled out: inclusive raw-range comparison on the
stored `startTime`/`endTime` plus the three truthy-guarded filters. -/
lemma windowMatches_iff (rs re : Int) (ef pf tf : Option String) (w : TimeWindowInDB) :
    windowMatches rs re ef pf tf w = true ↔
      (rs ≤ w.startTime ∧ w.endTime ≤ re ∧
        (truthy ef = true → w.employeeId = ef.getD "") ∧
        (truthy pf = true → w.projectId = pf.getD "") ∧
        (truthy tf = true → w.taskId = tf.getD "")) := by
  unfold windowMatches
  cases he : truthy ef <;> cases hp : truthy pf <;> cases ht : truthy tf <;>
    simp [he, hp, ht, and_assoc, decide_eq_true_eq, beq_iff_eq]

/-- A window with canonical interval [0, 1000000] but raw interval
[9000000, 10000000]. -/
def winC3 : TimeWindowInDB :=
  mkStoredWindow "W1" "E1" "P1" "T1" 9000000 10000000 9000000 (some 100) (some 60)

/-- A store holding only `winC3`. -/
def stC3 : Store :=
  { employees := [], projects := [], tasks := [], time_windows := [winC3] }

/-- C3, counterexample: `winC3`'s canonical (translated) interval
[0, 1000000] lies within [0, 7200000], yet the pipeline result over that
range is empty — the `$match` stage compares the raw-derived
`startTime`/`endTime` fields, not the canonical ones, so the window is
not selected — and the report function itself does not even return that
empty result: iterating `async for` over the plain result list raises a
TypeError on every call. -/
theorem c3_canonical_range_counterexample :
    winC3.startTranslated = 0 ∧ winC3.endTranslated = 1000000 ∧
      (0 ≤ winC3.startTranslated ∧ winC3.endTranslated ≤ 7200000) ∧
      project_time_pipeline stC3 0 7200000 none none none = [] ∧
      get_project_time_analytics stC3 0 7200000 none none none = .error .typeError := by
  decide

/-- C3, amended: the pipeline the report builds selects exactly the
windows whose raw (`startTime`/`endTime`, derived from the untranslated
start/end) interval lies within [rangeStart, rangeEnd], inclusive at both
ends, and that match every supplied optional filter, grouping per project
id: (i) the match predicate spelled out, (ii) the project ids of the
pipeline result are exactly the ids of matching windows, (iii) each
group's total time sums over exactly the matching windows of that
project; (iv) the report function itself never returns that result — it
raises a TypeError on every call. -/
theorem c3_raw_range_selection (st : Store) (rs re : Int) (ef pf tf : Option String) :
    (∀ w, windowMatches rs re ef pf tf w = true ↔
      (rs ≤ w.startTime ∧ w.endTime ≤ re ∧
        (truthy ef = true → w.employeeId = ef.getD "") ∧
        (truthy pf = true → w.projectId = pf.getD "") ∧
        (truthy tf = true → w.taskId = tf.getD ""))) ∧
    (∀ pid : String,
      (∃ pt ∈ project_time_pipeline st rs re ef pf tf, pt.id = pid) ↔
        ∃ w ∈ st.time_windows, windowMatches rs re ef pf tf w = true ∧ w.projectId = pid) ∧
    (∀ pt ∈ project_time_pipeline st rs re ef pf tf,
      pt.time = ((st.time_windows.filter (fun w =>
        w.projectId == pt.id && windowMatches rs re ef pf tf w)).map
          (fun w => w.end_ - w.start)).sum) ∧
    get_project_time_analytics st rs re ef pf tf = .error .typeError := by
  refine ⟨windowMatches_iff rs re ef pf tf, ?_, ?_, rfl⟩
  · intro pid
    simp only [project_time_pipeline, List.mem_map, mem_distinctKeys]
    constructor
    · rintro ⟨pt, ⟨a, ha, rfl⟩, hid⟩
      rw [groupEntry_id] at hid
      subst hid
      obtain ⟨w, hw, hproj⟩ := ha
      have hwf := List.mem_filter.mp hw
      exact ⟨w, hwf.1, hwf.2, hproj⟩
    · rintro ⟨w, hw, hm, hproj⟩
      refine ⟨groupEntry (st.time_windows.filter
          (windowMatches rs re ef pf tf)) pid, ⟨pid, ?_, rfl⟩, groupEntry_id _ _⟩
      exact ⟨w, List.mem_filter.mpr ⟨hw, hm⟩, hproj⟩
  · intro pt hpt
    simp only [project_time_pipeline, List.mem_map, mem_distinctKeys] at hpt
    obtain ⟨a, ha, rfl⟩ := hpt
    simp only [groupEntry_id, groupEntry, List.filter_filter]

/-- Window A of §8: one hour from 0, billRate 100, payRate 60. -/
def winA : TimeWindowInDB :=
  mkStoredWindow "A" "E1" "P1" "T1" 0 3600000 0 (some 100) (some 60)

/-- Window B of §8: one hour from 3600000, billRate 100, payRate 60. -/
def winB : TimeWindowInDB :=
  mkStoredWindow "B" "E1" "P1" "T1" 3600000 7200000 0 (some 100) (some 60)

/-- The two-window store of the §8 aggregation example. -/
def stC4 : Store :=
  { employees := [], projects := [], tasks := [], time_windows := [winA, winB] }

/-- The §8 expected report row. -/
def ptC4 : ProjectTime := { id := "P1", time := 7200000, costs := 120, income := 200 }

/-- Evaluation of the pipeline on the §8 store: one row, P1, two hours,
costs 120, income 200. -/
lemma report_stC4_eval :
    project_time_pipeline stC4 0 7200000 none none none = [ptC4] := by
  have hfilter : List.filter (windowMatches 0 7200000 none none none) stC4.time_windows
      = [winA, winB] := by decide
  have hkeys : distinctKeys (List.map (fun w => w.projectId) [winA, winB])
      = ["P1"] := by decide
  have hgrp : List.filter (fun w => w.projectId == "P1") [winA, winB]
      = [winA, winB] := by decide
  simp only [project_time_pipeline]
  rw [hfilter, hkeys]
  simp only [List.map_cons, List.map_nil]
  unfold groupEntry ptC4
  rw [hgrp]
  simp only [winA, winB, mkStoredWindow]
  norm_num [round2, roundHalfEven, List.sum_cons, List.sum_nil]

/-- C3 witness: on the §8 store the pipeline over [0, 7200000] has a row
for P1 (both one-hour windows match the raw-range predicate), and that
row's time is the sum over exactly the matching P1 windows. -/
theorem c3_raw_range_selection_witness :
    (∃ pt ∈ project_time_pipeline stC4 0 7200000 none none none, pt.id = "P1") ∧
      ptC4.time = ((stC4.time_windows.filter (fun w =>
        w.projectId == ptC4.id && windowMatches 0 7200000 none none none w)).map
          (fun w => w.end_ - w.start)).sum := by
  have h := c3_raw_range_selection stC4 0 7200000 none none none
  have hmem : ptC4 ∈ project_time_pipeline stC4 0 7200000 none none none := by
    rw [report_stC4_eval]; exact List.mem_singleton.mpr rfl
  exact ⟨(h.2.1 "P1").mpr ⟨winA, by decide, by decide, by decide⟩,
    h.2.2.1 ptC4 hmem⟩

/-- C4, evaluated at the failing input: on the two §8 one-hour windows the
pipeline the report builds and runs computes exactly the claimed row —
time 7200000, income = round2 of the sum of duration-hours × billRate
(200), costs likewise with payRate (120), the 2-decimal rounding applied
once after the summation — but the report function itself returns nothing:
it raises a TypeError (async-for over the plain result list) instead of
the row the claim (and the spec and the function docstring) promise. -/
theorem c4_rounded_totals :
    project_time_pipeline stC4 0 7200000 none none none = [ptC4] ∧
      ptC4.income = round2 (((stC4.time_windows.filter (fun w =>
        w.projectId == ptC4.id && windowMatches 0 7200000 none none none w)).map (fun w =>
        ((w.end_ - w.start : Int) : Rat) / 3600000 * (w.billRate.getD 0))).sum) ∧
      ptC4.costs = round2 (((stC4.time_windows.filter (fun w =>
        w.projectId == ptC4.id && windowMatches 0 7200000 none none none w)).map (fun w =>
        ((w.end_ - w.start : Int) : Rat) / 3600000 * (w.payRate.getD 0))).sum) ∧
      ptC4.time = 7200000 ∧ ptC4.income = 200 ∧ ptC4.costs = 120 ∧
      get_project_time_analytics stC4 0 7200000 none none none = .error .typeError := by
  have hfl : stC4.time_windows.filter (fun w =>
      w.projectId == ptC4.id && windowMatches 0 7200000 none none none w)
        = [winA, winB] := by decide
  refine ⟨report_stC4_eval, ?_, ?_, by norm_num [ptC4], by norm_num [ptC4],
    by norm_num [ptC4], rfl⟩
  · rw [hfl]
    simp only [winA, winB, mkStoredWindow, ptC4]
    norm_num [round2, roundHalfEven, List.sum_cons, List.sum_nil]
  · rw [hfl]
    simp only [winA, winB, mkStoredWindow, ptC4]
    norm_num [round2, roundHalfEven, List.sum_cons, List.sum_nil]

/-! ### C5: payroll validation against the final membership list -/

lemma applyProjectUpdate_id (p : ProjectInDB) (u : ProjectUpdate) :
    (applyProjectUpdate p u).id = p.id := rfl

lemma sync_employee_projects_projects (st : Store) (pid : String)
    (a r : List String) : (sync_employee_projects st pid a r).projects = st.projects := rfl

lemma validate_payroll_keys_error_iff (pm : ProjectPayroll) (ids : List String) :
    (∃ msg, validate_payroll_keys pm ids = .error (.validation msg)) ↔
      ∃ k ∈ pm.map Prod.fst, k ≠ "*" ∧ k ∉ ids := by
  induction pm with
  | nil => simp [validate_payroll_keys]
  | cons hd tl ih =>
    obtain ⟨k, pr⟩ := hd
    by_cases hk : k = "*"
    · subst hk
      have hstep : validate_payroll_keys (("*", pr) :: tl) ids
          = validate_payroll_keys tl ids := by
        simp [validate_payroll_keys]
      rw [hstep, ih]
      simp only [List.map_cons, List.mem_cons]
      constructor
      · rintro ⟨k', h1, h2, h3⟩; exact ⟨k', Or.inr h1, h2, h3⟩
      · rintro ⟨k', h1, h2, h3⟩
        rcases h1 with h | h
        · exact absurd h h2
        · exact ⟨k', h, h2, h3⟩
    · by_cases hmem : k ∈ ids
      · have hstep : validate_payroll_keys ((k, pr) :: tl) ids
            = validate_payroll_keys tl ids := by
          simp [validate_payroll_keys, hk, hmem]
        rw [hstep, ih]
        simp only [List.map_cons, List.mem_cons]
        constructor
        · rintro ⟨k', h1, h2, h3⟩; exact ⟨k', Or.inr h1, h2, h3⟩
        · rintro ⟨k', h1, h2, h3⟩
          rcases h1 with h | h
          · subst h; exact absurd hmem h3
          · exact ⟨k', h, h2, h3⟩
      · have hstep : validate_payroll_keys ((k, pr) :: tl) ids
            = .error (.validation ("Cannot set payroll for employee " ++ k ++
              " who is not assigned to the project.")) := by
          simp [validate_payroll_keys, hk, hmem]
        constructor
        · intro _
          exact ⟨k, by simp, hk, hmem⟩
        · intro _
          exact ⟨_, hstep⟩

lemma validate_payroll_keys_ok_iff (pm : ProjectPayroll) (ids : List String) :
    validate_payroll_keys pm ids = .ok () ↔
      ∀ k ∈ pm.map Prod.fst, k ≠ "*" → k ∈ ids := by
  induction pm with
  | nil => simp [validate_payroll_keys]
  | cons hd tl ih =>
    obtain ⟨k, pr⟩ := hd
    by_cases hk : k = "*"
    · subst hk
      have hstep : validate_payroll_keys (("*", pr) :: tl) ids
          = validate_payroll_keys tl ids := by
        simp [validate_payroll_keys]
      rw [hstep, ih]
      simp only [List.map_cons, List.mem_cons]
      constructor
      · intro h k' h1 h2
        rcases h1 with h' | h'
        · exact absurd h' h2
        · exact h k' h' h2
      · intro h k' h1 h2
        exact h k' (Or.inr h1) h2
    · by_cases hmem : k ∈ ids
      · have hstep : validate_payroll_keys ((k, pr) :: tl) ids
            = validate_payroll_keys tl ids := by
          simp [validate_payroll_keys, hk, hmem]
        rw [hstep, ih]
        simp only [List.map_cons, List.mem_cons]
        constructor
        · intro h k' h1 h2
          rcases h1 with h' | h'
          · subst h'; exact hmem
          · exact h k' h' h2
        · intro h k' h1 h2
          exact h k' (Or.inr h1) h2
      · have hstep : validate_payroll_keys ((k, pr) :: tl) ids
            = .error (.validation ("Cannot set payroll for employee " ++ k ++
              " who is not assigned to the project.")) := by
          simp [validate_payroll_keys, hk, hmem]
        rw [hstep]
        constructor
        · intro h; exact absurd h (by simp)
        · intro h
          exact absurd (h k (by simp) hk) hmem

lemma find?_map_update (ps : List ProjectInDB) (pid : String) (u : ProjectUpdate)
    (cur : ProjectInDB) (h : ps.find? (fun p => p.id == pid) = some cur) :
    (ps.map (fun p => if p.id == pid then applyProjectUpdate p u else p)).find?
        (fun p => p.id == pid) = some (applyProjectUpdate cur u) := by
  induction ps with
  | nil => simp at h
  | cons p ps ih =>
    by_cases hp : (p.id == pid) = true
    · rw [@List.find?_cons_of_pos ProjectInDB (fun q => q.id == pid) p ps hp] at h
      injection h with h
      subst h
      simp only [List.map_cons]
      rw [if_pos hp]
      have hp2 : ((applyProjectUpdate p u).id == pid) = true := by
        rw [applyProjectUpdate_id]; exact hp
      exact @List.find?_cons_of_pos ProjectInDB (fun q => q.id == pid) _ _ hp2
    · rw [@List.find?_cons_of_neg ProjectInDB (fun q => q.id == pid) p ps hp] at h
      simp only [List.map_cons]
      rw [if_neg hp]
      rw [@List.find?_cons_of_neg ProjectInDB (fun q => q.id == pid) p _ hp]
      exact ih h

/-- C5: payroll validation — at project creation, and at project update
against the final post-update membership list (the patched employee list
when one is supplied, otherwise the stored list) — fails with a
ValidationError exactly when some non-wildcard key of the supplied payroll
mapping is absent from that list; the wildcard key always validates (it is
excluded from the condition). -/
theorem c5_payroll_validation :
    (∀ (st : Store) (pin : ProjectCreate) (cid fid : String) (now : Int),
      validate_active_employees st pin.employees = .ok () →
      ((∃ msg, (create_project st pin cid fid now).2 = .error (.validation msg)) ↔
        ∃ k ∈ pin.payroll.map Prod.fst, k ≠ "*" ∧ k ∉ pin.employees)) ∧
    (∀ (st : Store) (pid : String) (patch : ProjectUpdate) (cur : ProjectInDB)
      (pm : ProjectPayroll),
      get_project st pid = some cur →
      patch.payroll = some pm →
      (∀ l, patch.employees = some l → validate_active_employees st l = .ok ()) →
      ((∃ msg, (update_project st pid patch).2 = .error (.validation msg)) ↔
        ∃ k ∈ pm.map Prod.fst, k ≠ "*" ∧ k ∉ patch.employees.getD cur.employees)) := by
  constructor
  · intro st pin cid fid now hact
    by_cases hc : ∃ k ∈ pin.payroll.map Prod.fst, k ≠ "*" ∧ k ∉ pin.employees
    · obtain ⟨msg, hmsg⟩ := (validate_payroll_keys_error_iff pin.payroll pin.employees).mpr hc
      have hres : (create_project st pin cid fid now).2 = .error (.validation msg) := by
        simp only [create_project, hact, validate_payroll, hmsg]
      exact iff_of_true ⟨msg, hres⟩ hc
    · have hok : validate_payroll_keys pin.payroll pin.employees = .ok () := by
        rw [validate_payroll_keys_ok_iff]
        intro k hkmem hkne
        by_contra hkn
        exact hc ⟨k, hkmem, hkne, hkn⟩
      refine iff_of_false ?_ hc
      rintro ⟨msg, hres⟩
      rw [show (create_project st pin cid fid now).2 = .ok {
          name := pin.name, description := pin.description, billable := pin.billable
          employees := pin.employees, screenshotSettings := pin.screenshotSettings
          payroll := pin.payroll, id := fid, creatorId := cid
          organizationId := "default-org", archived := false
          statuses := ["To Do", "In Progress", "Done"]
          priorities := ["Low", "Medium", "High"], createdAt := now } from by
        simp only [create_project, hact, validate_payroll, hok]] at hres
      exact Except.noConfusion hres
  · intro st pid patch cur pm hfound hpm hact
    have hfound2 : st.projects.find? (fun p => p.id == pid) = some cur := hfound
    have hne : patch.isEmpty = false := by
      simp [ProjectUpdate.isEmpty, hpm]
    have hfind : (st.projects.map (fun p =>
        if p.id == pid then applyProjectUpdate p patch else p)).find?
          (fun p => p.id == pid) = some (applyProjectUpdate cur patch) :=
      find?_map_update st.projects pid patch cur hfound2
    cases hpe : patch.employees with
    | none =>
      simp only [Option.getD_none]
      by_cases hc : ∃ k ∈ pm.map Prod.fst, k ≠ "*" ∧ k ∉ cur.employees
      · obtain ⟨msg, hmsg⟩ := (validate_payroll_keys_error_iff pm cur.employees).mpr hc
        have hres : (update_project st pid patch).2 = .error (.validation msg) := by
          simp only [update_project, hfound, hpe, hpm, validate_payroll,
            Option.getD_none, hmsg]
        exact iff_of_true ⟨msg, hres⟩ hc
      · have hok : validate_payroll_keys pm cur.employees = .ok () := by
          rw [validate_payroll_keys_ok_iff]
          intro k hkmem hkne
          by_contra hkn
          exact hc ⟨k, hkmem, hkne, hkn⟩
        have hres : (update_project st pid patch).2 = .ok (applyProjectUpdate cur patch) := by
          simp only [update_project, get_project] at hfound ⊢
          simp only [hfound, hpe, hpm, validate_payroll, Option.getD_none, hok, hne,
            Bool.false_eq_true, if_false, hfind]
        refine iff_of_false ?_ hc
        rintro ⟨msg, h⟩
        rw [hres] at h
        exact Except.noConfusion h
    | some l =>
      simp only [Option.getD_some]
      have hval := hact l hpe
      by_cases hc : ∃ k ∈ pm.map Prod.fst, k ≠ "*" ∧ k ∉ l
      · obtain ⟨msg, hmsg⟩ := (validate_payroll_keys_error_iff pm l).mpr hc
        have hres : (update_project st pid patch).2 = .error (.validation msg) := by
          simp only [update_project, hfound, hpe, hval, hpm, validate_payroll,
            Option.getD_some, hmsg]
        exact iff_of_true ⟨msg, hres⟩ hc
      · have hok : validate_payroll_keys pm l = .ok () := by
          rw [validate_payroll_keys_ok_iff]
          intro k hkmem hkne
          by_contra hkn
          exact hc ⟨k, hkmem, hkne, hkn⟩
        have hres : (update_project st pid patch).2 = .ok (applyProjectUpdate cur patch) := by
          simp only [update_project, get_project] at hfound ⊢
          simp only [hfound, hpe, hval, hpm, validate_payroll, Option.getD_some, hok, hne,
            Bool.false_eq_true, if_false, sync_employee_projects_projects, hfind]
        refine iff_of_false ?_ hc
        rintro ⟨msg, h⟩
        rw [hres] at h
        exact Except.noConfusion h

/-- A creation body whose payroll names the unassigned employee E9. -/
def pinC5 : ProjectCreate :=
  { name := "N", description := none, billable := true, employees := []
    screenshotSettings := { screenshotEnabled := true }
    payroll := [("E9", { billRate := 1, overtimeBillRate := none })] }

/-- The empty store. -/
def stEmpty : Store := { employees := [], projects := [], tasks := [], time_windows := [] }

/-- C5 witness: creating a project whose payroll keys the unassigned E9
fails with a ValidationError. -/
theorem c5_payroll_validation_witness :
    ∃ msg, (create_project stEmpty pinC5 "admin" "P1" 0).2 = .error (.validation msg) := by
  exact (c5_payroll_validation.1 stEmpty pinC5 "admin" "P1" 0 (by decide)).mpr
    ⟨"E9", by decide, by decide, by decide⟩

/-! ### C10: membership writes name only existing, active employees -/

lemma validate_active_ok_iff (st : Store) (ids : List String) :
    validate_active_employees st ids = .ok () ↔
      ∀ i ∈ ids, ∃ e ∈ st.employees, e.id = i ∧ e.deactivated_at = none := by
  induction ids with
  | nil => simp [validate_active_employees]
  | cons i rest ih =>
    cases hf : st.employees.find? (fun e => e.id == i && e.deactivated_at.isNone) with
    | some e =>
      have hm := List.mem_of_find?_eq_some hf
      have hp := List.find?_some hf
      simp only [Bool.and_eq_true, beq_iff_eq, Option.isNone_iff_eq_none] at hp
      have hstep : validate_active_employees st (i :: rest)
          = validate_active_employees st rest := by
        simp only [validate_active_employees, hf]
      rw [hstep, ih]
      constructor
      · intro h j hj
        rcases List.mem_cons.mp hj with h' | h'
        · subst h'; exact ⟨e, hm, hp.1, hp.2⟩
        · exact h j h'
      · intro h j hj
        exact h j (List.mem_cons_of_mem _ hj)
    | none =>
      have hstep : validate_active_employees st (i :: rest)
          = .error (.validation ("Employee with ID " ++ i ++
            " is either deactivated or does not exist.")) := by
        simp only [validate_active_employees, hf]
      rw [hstep]
      constructor
      · intro h; exact absurd h (by simp)
      · intro h
        obtain ⟨e, hm, hid, hda⟩ := h i (List.mem_cons_self _ _)
        have := List.find?_eq_none.mp hf e hm
        simp [hid, hda] at this


lemma validate_active_error_iff (st : Store) (ids : List String) :
    (∃ msg, validate_active_employees st ids = .error (.validation msg)) ↔
      ∃ i ∈ ids, ∀ e ∈ st.employees, ¬(e.id = i ∧ e.deactivated_at = none) := by
  induction ids with
  | nil => simp [validate_active_employees]
  | cons i rest ih =>
    cases hf : st.employees.find? (fun e => e.id == i && e.deactivated_at.isNone) with
    | some e =>
      have hm := List.mem_of_find?_eq_some hf
      have hp := List.find?_some hf
      simp only [Bool.and_eq_true, beq_iff_eq, Option.isNone_iff_eq_none] at hp
      have hstep : validate_active_employees st (i :: rest)
          = validate_active_employees st rest := by
        simp only [validate_active_employees, hf]
      rw [hstep, ih]
      constructor
      · rintro ⟨j, hj, h⟩; exact ⟨j, List.mem_cons_of_mem _ hj, h⟩
      · rintro ⟨j, hj, h⟩
        rcases List.mem_cons.mp hj with h' | h'
        · subst h'; exact absurd ⟨hp.1, hp.2⟩ (h e hm)
        · exact ⟨j, h', h⟩
    | none =>
      have hstep : validate_active_employees st (i :: rest)
          = .error (.validation ("Employee with ID " ++ i ++
            " is either deactivated or does not exist.")) := by
        simp only [validate_active_employees, hf]
      rw [hstep]
      constructor
      · intro _
        refine ⟨i, List.mem_cons_self _ _, ?_⟩
        intro e hm hand
        have := List.find?_eq_none.mp hf e hm
        simp [hand.1, hand.2] at this
      · intro _
        exact ⟨_, rfl⟩

/-- C10: `create_project` and `update_project` fail with a ValidationError
and write nothing (the returned store is the input store) whenever the
supplied membership list contains an id with no matching active employee
document (no document with that id and a null `deactivated_at`); and a
successful membership write validates every written id against an
existing, active employee document. -/
theorem c10_active_membership :
    (∀ (st : Store) (pin : ProjectCreate) (cid fid : String) (now : Int) (i : String),
      i ∈ pin.employees → (∀ e ∈ st.employees, e.id = i → e.deactivated_at ≠ none) →
      (create_project st pin cid fid now).1 = st ∧
        ∃ msg, (create_project st pin cid fid now).2 = .error (.validation msg)) ∧
    (∀ (st : Store) (pid : String) (patch : ProjectUpdate) (cur : ProjectInDB)
      (l : List String) (i : String),
      get_project st pid = some cur → patch.employees = some l → i ∈ l →
      (∀ e ∈ st.employees, e.id = i → e.deactivated_at ≠ none) →
      (update_project st pid patch).1 = st ∧
        ∃ msg, (update_project st pid patch).2 = .error (.validation msg)) ∧
    (∀ (st : Store) (pin : ProjectCreate) (cid fid : String) (now : Int)
      (st' : Store) (p : ProjectInDB),
      create_project st pin cid fid now = (st', .ok p) →
      ∀ i ∈ p.employees, ∃ e ∈ st.employees, e.id = i ∧ e.deactivated_at = none) ∧
    (∀ (st : Store) (pid : String) (patch : ProjectUpdate) (l : List String)
      (st' : Store) (p : ProjectInDB),
      patch.employees = some l → update_project st pid patch = (st', .ok p) →
      ∀ i ∈ l, ∃ e ∈ st.employees, e.id = i ∧ e.deactivated_at = none) := by
  refine ⟨?_, ?_, ?_, ?_⟩
  · intro st pin cid fid now i hi hbad
    obtain ⟨msg, hmsg⟩ := (validate_active_error_iff st pin.employees).mpr
      ⟨i, hi, fun e he hand => hbad e he hand.1 hand.2⟩
    constructor
    · simp only [create_project, hmsg]
    · exact ⟨msg, by simp only [create_project, hmsg]⟩
  · intro st pid patch cur l i hfound hpe hi hbad
    obtain ⟨msg, hmsg⟩ := (validate_active_error_iff st l).mpr
      ⟨i, hi, fun e he hand => hbad e he hand.1 hand.2⟩
    constructor
    · simp only [update_project, hfound, hpe, hmsg]
    · exact ⟨msg, by simp only [update_project, hfound, hpe, hmsg]⟩
  · intro st pin cid fid now st' p h
    cases hv : validate_active_employees st pin.employees with
    | error e =>
      rw [show create_project st pin cid fid now = (st, .error e) from by
        simp only [create_project, hv]] at h
      simp at h
    | ok u =>
      cases u
      have hall := (validate_active_ok_iff st pin.employees).mp hv
      cases hpv : validate_payroll_keys pin.payroll pin.employees with
      | error e =>
        rw [show create_project st pin cid fid now = (st, .error e) from by
          simp only [create_project, hv, validate_payroll, hpv]] at h
        simp at h
      | ok u2 =>
        cases u2
        have hemp : p.employees = pin.employees := by
          have h2 : (create_project st pin cid fid now).2 = .ok {
              name := pin.name, description := pin.description, billable := pin.billable
              employees := pin.employees, screenshotSettings := pin.screenshotSettings
              payroll := pin.payroll, id := fid, creatorId := cid
              organizationId := "default-org", archived := false
              statuses := ["To Do", "In Progress", "Done"]
              priorities := ["Low", "Medium", "High"], createdAt := now } := by
            simp only [create_project, hv, validate_payroll, hpv]
          rw [h] at h2
          simp only [Except.ok.injEq] at h2
          rw [h2]
        rw [hemp]
        exact hall
  · intro st pid patch l st' p hpe h
    cases hfound : get_project st pid with
    | none =>
      rw [show update_project st pid patch = (st, .error .notFound) from by
        simp only [update_project, hfound]] at h
      simp at h
    | some cur =>
      cases hv : validate_active_employees st l with
      | error e =>
        rw [show update_project st pid patch = (st, .error e) from by
          simp only [update_project, hfound, hpe, hv]] at h
        simp at h
      | ok u =>
        cases u
        exact (validate_active_ok_iff st l).mp hv

/-- A store holding only the deactivated employee E9. -/
def stC10 : Store :=
  { employees := [mkEmployee "E9" [] (some 5)], projects := [], tasks := []
    time_windows := [] }

/-- A creation body listing E9 as a member. -/
def pinC10 : ProjectCreate :=
  { name := "N", description := none, billable := true, employees := ["E9"]
    screenshotSettings := { screenshotEnabled := true }, payroll := [] }

/-- C10 witness: creating a project whose membership names the deactivated
E9 fails with a ValidationError and leaves the store untouched. -/
theorem c10_active_membership_witness :
    (create_project stC10 pinC10 "admin" "P1" 0).1 = stC10 ∧
      ∃ msg, (create_project stC10 pinC10 "admin" "P1" 0).2 = .error (.validation msg) := by
  exact c10_active_membership.1 stC10 pinC10 "admin" "P1" 0 "E9" (by decide)
    (by intro e he hid; cases List.mem_singleton.mp he; decide)

end TimeTrack
